import Mathlib

/-!
Shallow embedding of the panos-to-scm bulk-provisioning client, covering the
two create/retry implementations of the repository:

* `src/post_utils.py` — module-level `create_object`, `create_objects`,
  `token_is_expired`, and the global `token_refresh_lock`;
* `src/scm/__init__.py` — class `PanApiHandler` with methods `create_object`,
  `create_objects`, `list_objects`.

The HTTP environment is modelled as a stream `Nat → PostResult` giving, for
each attempt index, either an exception raised inside the try block before the
error body is parsed (`requests.post` raising, or `response.json()` raising)
or a response with a status code and the string form of its parsed JSON body
(Python `str(error_response)`).  Python functions that can let an exception
escape return `PyResult`; `.exn` is an uncaught exception propagating to the
caller.  `time.sleep` calls are counted so that retry/no-retry behaviour is
observable.  Wall-clock times are rationals (seconds).
-/

/-- Result of a Python call: normal return, or an uncaught exception
(identified by its message / exception-class name) propagating out. -/
inductive PyResult (α : Type) where
  | ret : α → PyResult α
  | exn : String → PyResult α
deriving DecidableEq

/-- What one `requests.post` attempt produces inside the try block:
either an exception is raised before `error_response` is assigned
(network error, timeout, or `response.json()` failing), or a response
arrives with a status code and the lower-level string rendering of its
parsed body, `str(response.json())`.  A 201 response never has its body
parsed, so the body component is simply unused in that case. -/
inductive PostResult where
  | exn : String → PostResult
  | resp : Nat → String → PostResult
deriving DecidableEq

/-- The outcome tuples returned by both `create_object` implementations:
`('This object created', name)`, `('This object exists', name)`, and
`('error creating object', name, reason)`. -/
inductive Outcome where
  | created : String → Outcome
  | alreadyExists : String → Outcome
  | failed : String → String → Outcome
deriving DecidableEq

/-- Observable result of one `create_object` call: the returned value (or the
uncaught exception) together with the number of `time.sleep` calls made. -/
structure RunResult where
  result : PyResult Outcome
  sleeps : Nat
deriving DecidableEq

/-- Does the character list `needle` occur at the head of `hay`? -/
def startsWithChars : List Char → List Char → Bool
  | [], _ => true
  | _ :: _, [] => false
  | a :: as, b :: bs => a == b && startsWithChars as bs

/-- Does the character list `needle` occur anywhere inside `hay`? -/
def occursInChars (needle : List Char) : List Char → Bool
  | [] => startsWithChars needle []
  | c :: cs => startsWithChars needle (c :: cs) || occursInChars needle cs

/-- Substring test on strings, `needle in hay` in Python. -/
def strContains (hay needle : String) : Bool :=
  occursInChars needle.data hay.data

/-- Python `s.lower()` (ASCII case folding suffices for the fixed needles). -/
def lowerStr (s : String) : String :=
  ⟨s.data.map Char.toLower⟩

/-- Python `needle in str(error_response).lower()` for a fixed needle. -/
def lowerHas (body needle : String) : Bool :=
  strContains (lowerStr body) needle

namespace PostUtils

set_option linter.unusedVariables false in
/-- Embedding of `post_utils.token_is_expired(access_token, token_file)`.
The source ignores `access_token` entirely; it reads the token file, and when
the file exists compares `time.time()` against `expires_at - 180`.  The file
is modelled by `fileExists` and the stored `expires_at`; `current_time` is
`time.time()`. -/
def token_is_expired (access_token : String) (fileExists : Bool)
    (expires_at current_time : Rat) : Bool :=
  if fileExists then decide (current_time > expires_at - 180)
  else true

/-- The attempt loop of `post_utils.create_object` (lines 23-62).
`attemptsLeft` counts the remaining iterations of
`for attempt in range(retries + 1)`, `idx` is the current attempt index into
the post stream, `er` is the Python local `error_response` (assigned only when
a 400 body was parsed on some earlier or current attempt; it persists across
loop iterations), and `sleeps` accumulates `time.sleep(delay)` calls.
A status which is neither 201 nor 400 falls through the if/elif chain with no
handling at all, so the loop moves to the next attempt without sleeping.
In the except branch the source logs an f-string mentioning `error_response`;
when that local was never assigned this raises `NameError` out of the
function, otherwise the branch returns the terminal exception outcome. -/
def createGo (name : String) (posts : Nat → PostResult) :
    Nat → Nat → Option String → Nat → RunResult
  | 0, _, _, sleeps => ⟨.ret (.failed name "Failed after retries"), sleeps⟩
  | n + 1, idx, er, sleeps =>
    match posts idx with
    | .exn _ =>
      match er with
      | none => ⟨.exn "NameError", sleeps⟩
      | some _ => ⟨.ret (.failed name "Exception occurred"), sleeps⟩
    | .resp status body =>
      if status == 201 then ⟨.ret (.created name), sleeps⟩
      else if status == 400 then
        if lowerHas body "object already exists" then
          ⟨.ret (.alreadyExists name), sleeps⟩
        else if lowerHas body "is not a valid reference" then
          createGo name posts n (idx + 1) (some body) (sleeps + 1)
        else ⟨.ret (.failed name "Error: Object creation failed"), sleeps⟩
      else createGo name posts n (idx + 1) er sleeps

/-- Embedding of `post_utils.create_object(url, headers, item_data, retries, ...)`.
`name` is `item_data['name']`; URL, headers and the token-refresh critical
section (side effects only) are not observable in the returned value. -/
def create_object (name : String) (posts : Nat → PostResult)
    (retries : Nat) : RunResult :=
  createGo name posts (retries + 1) 0 none 0

end PostUtils

namespace PanApiHandler

/-- The attempt loop of `PanApiHandler.create_object` (scm/__init__.py lines
99-130).  For every non-201 response the body is parsed first
(`error_response = response.json()`); a parse failure is an exception inside
the try and is covered by `PostResult.exn`.  The final
`return 'error creating object', ..., "Error: Object creation failed"` sits
outside the 400 branch, so a non-400, non-201 status reaches it directly.
The except branch sleeps and keeps looping while `attempt < retries`, i.e.
while the current iteration is not the last, and otherwise returns the
outcome whose reason embeds `str(e)`. -/
def createGo (name : String) (posts : Nat → PostResult) :
    Nat → Nat → Nat → RunResult
  | 0, _, sleeps => ⟨.ret (.failed name "Failed after retries"), sleeps⟩
  | n + 1, idx, sleeps =>
    match posts idx with
    | .exn msg =>
      if n == 0 then ⟨.ret (.failed name ("Exception: " ++ msg)), sleeps⟩
      else createGo name posts n (idx + 1) (sleeps + 1)
    | .resp status body =>
      if status == 201 then ⟨.ret (.created name), sleeps⟩
      else
        if status == 400 then
          if lowerHas body "object already exists" then
            ⟨.ret (.alreadyExists name), sleeps⟩
          else if lowerHas body "is not a valid reference" then
            createGo name posts n (idx + 1) (sleeps + 1)
          else if lowerHas body "max retries exceeded" then
            createGo name posts n (idx + 1) (sleeps + 1)
          else ⟨.ret (.failed name "Error: Object creation failed"), sleeps⟩
        else ⟨.ret (.failed name "Error: Object creation failed"), sleeps⟩

/-- Embedding of `PanApiHandler.create_object(endpoint, item_data, retries, delay)`. -/
def create_object (name : String) (posts : Nat → PostResult)
    (retries : Nat) : RunResult :=
  createGo name posts (retries + 1) 0 0

end PanApiHandler

/-- One submitted object definition: its `name` field together with the
post-attempt environment its worker will see. -/
abbrev BatchItem : Type := String × (Nat → PostResult)

/-- The collection loop shared by both `create_objects` implementations:
each item is handed to a worker running the given creator, and
`for future in as_completed(futures): result = future.result()` gathers one
result per submitted item.  `future.result()` re-raises an exception the
worker raised, which then propagates out of `create_objects` (the with-block
only waits for the pool to drain; it does not swallow the exception).
Completion order is unspecified in the source; the embedding collects in
submission order, one admissible schedule.  Whether some worker raised, and
the multiset of outcomes when none did, do not depend on that order. -/
def collectOutcomes (create : String → (Nat → PostResult) → RunResult) :
    List BatchItem → PyResult (List Outcome)
  | [] => .ret []
  | (nm, posts) :: rest =>
    match (create nm posts).result with
    | .exn m => .exn m
    | .ret o =>
      match collectOutcomes create rest with
      | .exn m => .exn m
      | .ret os => .ret (o :: os)

namespace PostUtils

/-- Embedding of `post_utils.create_objects(scope, start_index, ..., data, ...)`
(lines 64-84): submits one `create_object` call with `retries=2` per element
of `data[start_index:]` and collects the results. -/
def create_objects (data : List BatchItem) (start_index : Nat) :
    PyResult (List Outcome) :=
  collectOutcomes (fun nm posts => PostUtils.create_object nm posts 2)
    (data.drop start_index)

end PostUtils

namespace PanApiHandler

/-- Embedding of `PanApiHandler.create_objects(scope, start_index, ...)`
(scm/__init__.py lines 132-147): one `create_object` call with `retries=2`
per element of `data[start_index:]`. -/
def create_objects (data : List BatchItem) (start_index : Nat) :
    PyResult (List Outcome) :=
  collectOutcomes (fun nm posts => PanApiHandler.create_object nm posts 2)
    (data.drop start_index)

/-- Parsed body of a GET response, as `response.json()` views it:
either parsing raises, or it yields an object whose `"data"` field
(a list of opaque records, modelled as strings) may be absent. -/
inductive BodyJson where
  | exn : String → BodyJson
  | val : Option (List String) → BodyJson
deriving DecidableEq

/-- What one `self.session.get(url)` call produces: an exception, or a
response with a status code, a parsed-body view and the raw `response.text`. -/
inductive GetResult where
  | exn : String → GetResult
  | resp : Nat → BodyJson → String → GetResult
deriving DecidableEq

/-- Embedding of `PanApiHandler.list_objects` (scm/__init__.py lines 35-52).
`ensure` models `self.session.ensure_valid_token()` on the external session
collaborator: `none` when it returns normally, `some m` when it raises (the
call sits before the try block, so such an exception propagates).  Only the
GET itself is inside the try; `response.json()` on a 200 response is executed
after the try, so a parse failure there also propagates. -/
def list_objects (ensure : Option String) (g : GetResult) :
    PyResult (List String) :=
  match ensure with
  | some m => .exn m
  | none =>
    match g with
    | .exn _ => .ret []
    | .resp status body _ =>
      if status == 200 then
        match body with
        | .exn m => .exn m
        | .val d => .ret (d.getD [])
      else .ret []

end PanApiHandler

/-- Shared credential state seen through the token file: whether the file
exists, the stored `expires_at`, and how many force refreshes
(`obtain_api_token(..., force_refresh=True)`) have been issued so far. -/
structure TokenState where
  fileExists : Bool
  expires_at : Rat
  refreshCount : Nat
deriving DecidableEq

/-- Modelled from the spec: `obtain_api_token` lives in `token_utils`, which
is not under src/.  Per the spec, the Token Guard collaborator provides
`obtain_token(force_refresh) -> (token, expiry)` and persists the credential,
so a forced refresh writes a token file whose `expires_at` is the refresh
instant plus the credential lifetime.

This definition is the critical section of `post_utils.create_object`
(lines 25-30): under `token_refresh_lock`, check `token_is_expired` against
the token file and, only if expired, issue the force refresh.  The lock is
held across both the check and the refresh, so a concurrent execution of N
workers is a sequence of these atomic steps. -/
def guardedRefresh (tok : String) (now lifetime : Rat)
    (s : TokenState) : TokenState :=
  if PostUtils.token_is_expired tok s.fileExists s.expires_at now then
    ⟨true, now + lifetime, s.refreshCount + 1⟩
  else s

/-- N workers each run the guarded check-then-refresh critical section once;
the lock serializes them, so the shared state threads through `n` steps. -/
def runGuardedWorkers (tok : String) (now lifetime : Rat) :
    Nat → TokenState → TokenState
  | 0, s => s
  | n + 1, s => runGuardedWorkers tok now lifetime n (guardedRefresh tok now lifetime s)

/-- A post stream that raises on every attempt (e.g. a read timeout). -/
def exnStream : Nat → PostResult := fun _ => .exn "timeout"

/-- A post stream answering every attempt with HTTP 500. -/
def serverErrorStream : Nat → PostResult :=
  fun _ => .resp 500 "Internal Server Error"

/-- A post stream answering every attempt with a rate-limiting 400. -/
def rateLimitStream : Nat → PostResult :=
  fun _ => .resp 400 "Max retries exceeded with url"

/-- A post stream answering every attempt with an invalid-reference 400. -/
def invalidRefStream : Nat → PostResult :=
  fun _ => .resp 400 "tag99 is not a valid reference"

/-- A post stream whose first attempt gets an invalid-reference 400 (binding
the Python local `error_response`) and whose later attempts raise. -/
def invalidRefThenExnStream : Nat → PostResult :=
  fun j => if j == 0 then .resp 400 "tag99 is not a valid reference"
           else .exn "timeout"

/-- A 400 response whose body matches the already-exists substring check. -/
def isAlreadyExistsResp : PostResult → Bool
  | .exn _ => false
  | .resp status body =>
    status == 400 && lowerHas body "object already exists"

/-- A 400 response that takes the invalid-reference branch: the
already-exists check (performed first) fails and the invalid-reference
substring is present. -/
def isInvalidRefResp : PostResult → Bool
  | .exn _ => false
  | .resp status body =>
    status == 400 && !(lowerHas body "object already exists")
      && lowerHas body "is not a valid reference"

/-- A 400 response that takes the rate-limit branch of
`PanApiHandler.create_object`: the two earlier substring checks fail and the
max-retries substring is present. -/
def isRateLimitResp : PostResult → Bool
  | .exn _ => false
  | .resp status body =>
    status == 400 && !(lowerHas body "object already exists")
      && !(lowerHas body "is not a valid reference")
      && lowerHas body "max retries exceeded"

/-- A response taking either retryable-400 branch of
`PanApiHandler.create_object`. -/
def isScmRetryableResp (p : PostResult) : Bool :=
  isInvalidRefResp p || isRateLimitResp p

/-- A response whose status is neither 201 nor 400 (e.g. 500). -/
def isOtherStatusResp : PostResult → Bool
  | .exn _ => false
  | .resp status _ => status != 201 && status != 400

/-- A non-201 response matching none of the three special 400 substrings:
exactly the responses that `PanApiHandler.create_object` turns into the
immediate terminal failure outcome. -/
def isPlainFailResp : PostResult → Bool
  | .exn _ => false
  | .resp status body =>
    status != 201 &&
      (status != 400 ||
        (!(lowerHas body "object already exists")
          && !(lowerHas body "is not a valid reference")
          && !(lowerHas body "max retries exceeded")))

/-- When every remaining attempt draws an invalid-reference 400, the
post_utils attempt loop sleeps once per attempt and falls off the end. -/
lemma PostUtils.createGo_allInvalid (name : String) (posts : Nat → PostResult) :
    ∀ (n idx : Nat) (er : Option String) (s : Nat),
      (∀ j < n, isInvalidRefResp (posts (idx + j)) = true) →
      PostUtils.createGo name posts n idx er s =
        ⟨.ret (.failed name "Failed after retries"), s + n⟩ := by
  intro n
  induction n with
  | zero => intro idx er s _; simp [PostUtils.createGo]
  | succ n ih =>
    intro idx er s h
    have h0 := h 0 (Nat.succ_pos n)
    rw [Nat.add_zero] at h0
    cases hp : posts idx with
    | exn m => rw [hp] at h0; simp [isInvalidRefResp] at h0
    | resp st body =>
      rw [hp] at h0
      simp only [isInvalidRefResp, Bool.and_eq_true, beq_iff_eq,
        Bool.not_eq_true'] at h0
      obtain ⟨⟨hst, hex⟩, hinv⟩ := h0
      subst hst
      have hrest : ∀ j < n, isInvalidRefResp (posts (idx + 1 + j)) = true := by
        intro j hj
        have := h (j + 1) (by omega)
        rwa [show idx + (j + 1) = idx + 1 + j from by omega] at this
      calc PostUtils.createGo name posts (n + 1) idx er s
          = PostUtils.createGo name posts n (idx + 1) (some body) (s + 1) := by
            simp [PostUtils.createGo, hp, hex, hinv]
        _ = ⟨.ret (.failed name "Failed after retries"), s + 1 + n⟩ :=
            ih (idx + 1) (some body) (s + 1) hrest
        _ = ⟨.ret (.failed name "Failed after retries"), s + (n + 1)⟩ := by
            congr 1; omega

/-- When every remaining attempt draws a status that is neither 201 nor 400,
the post_utils attempt loop silently moves on without sleeping and, once
attempts run out, reports failure after retries. -/
lemma PostUtils.createGo_allOther (name : String) (posts : Nat → PostResult) :
    ∀ (n idx : Nat) (er : Option String) (s : Nat),
      (∀ j < n, isOtherStatusResp (posts (idx + j)) = true) →
      PostUtils.createGo name posts n idx er s =
        ⟨.ret (.failed name "Failed after retries"), s⟩ := by
  intro n
  induction n with
  | zero => intro idx er s _; simp [PostUtils.createGo]
  | succ n ih =>
    intro idx er s h
    have h0 := h 0 (Nat.succ_pos n)
    rw [Nat.add_zero] at h0
    cases hp : posts idx with
    | exn m => rw [hp] at h0; simp [isOtherStatusResp] at h0
    | resp st body =>
      rw [hp] at h0
      simp only [isOtherStatusResp, Bool.and_eq_true, bne_iff_ne,
        ne_eq] at h0
      obtain ⟨h201, h400⟩ := h0
      have hrest : ∀ j < n, isOtherStatusResp (posts (idx + 1 + j)) = true := by
        intro j hj
        have := h (j + 1) (by omega)
        rwa [show idx + (j + 1) = idx + 1 + j from by omega] at this
      calc PostUtils.createGo name posts (n + 1) idx er s
          = PostUtils.createGo name posts n (idx + 1) er s := by
            have e201 : (st == 201) = false := by simpa using h201
            have e400 : (st == 400) = false := by simpa using h400
            simp [PostUtils.createGo, hp, e201, e400]
        _ = ⟨.ret (.failed name "Failed after retries"), s⟩ :=
            ih (idx + 1) er s hrest

/-- When every remaining attempt draws a retryable 400 (invalid reference or
rate limit), the scm attempt loop sleeps once per attempt and falls off the
end. -/
lemma PanApiHandler.createGo_allRetryable (name : String) (posts : Nat → PostResult) :
    ∀ (n idx s : Nat),
      (∀ j < n, isScmRetryableResp (posts (idx + j)) = true) →
      PanApiHandler.createGo name posts n idx s =
        ⟨.ret (.failed name "Failed after retries"), s + n⟩ := by
  intro n
  induction n with
  | zero => intro idx s _; simp [PanApiHandler.createGo]
  | succ n ih =>
    intro idx s h
    have h0 := h 0 (Nat.succ_pos n)
    rw [Nat.add_zero] at h0
    have hrest : ∀ j < n, isScmRetryableResp (posts (idx + 1 + j)) = true := by
      intro j hj
      have := h (j + 1) (by omega)
      rwa [show idx + (j + 1) = idx + 1 + j from by omega] at this
    have hstep : PanApiHandler.createGo name posts (n + 1) idx s =
        PanApiHandler.createGo name posts n (idx + 1) (s + 1) := by
      cases hp : posts idx with
      | exn m => rw [hp] at h0; simp [isScmRetryableResp, isInvalidRefResp, isRateLimitResp] at h0
      | resp st body =>
        rw [hp] at h0
        simp only [isScmRetryableResp, Bool.or_eq_true] at h0
        rcases h0 with h0 | h0
        · simp only [isInvalidRefResp, Bool.and_eq_true, beq_iff_eq,
            Bool.not_eq_true'] at h0
          obtain ⟨⟨hst, hex⟩, hinv⟩ := h0
          subst hst
          simp [PanApiHandler.createGo, hp, hex, hinv]
        · simp only [isRateLimitResp, Bool.and_eq_true, beq_iff_eq,
            Bool.not_eq_true'] at h0
          obtain ⟨⟨⟨hst, hex⟩, hinv⟩, hrate⟩ := h0
          subst hst
          simp [PanApiHandler.createGo, hp, hex, hinv, hrate]
    calc PanApiHandler.createGo name posts (n + 1) idx s
        = PanApiHandler.createGo name posts n (idx + 1) (s + 1) := hstep
      _ = ⟨.ret (.failed name "Failed after retries"), s + 1 + n⟩ :=
          ih (idx + 1) (s + 1) hrest
      _ = ⟨.ret (.failed name "Failed after retries"), s + (n + 1)⟩ := by
          congr 1; omega

/-- When every attempt raises, the scm attempt loop sleeps on each non-final
attempt and returns the exception outcome of the last attempt. -/
lemma PanApiHandler.createGo_allExn (name : String) (posts : Nat → PostResult)
    (msgs : Nat → String) :
    ∀ (n idx s : Nat),
      (∀ j < n + 1, posts (idx + j) = .exn (msgs (idx + j))) →
      PanApiHandler.createGo name posts (n + 1) idx s =
        ⟨.ret (.failed name ("Exception: " ++ msgs (idx + n))), s + n⟩ := by
  intro n
  induction n with
  | zero =>
    intro idx s h
    have h0 := h 0 Nat.one_pos
    rw [Nat.add_zero] at h0
    simp [PanApiHandler.createGo, h0]
  | succ n ih =>
    intro idx s h
    have h0 := h 0 (Nat.succ_pos _)
    rw [Nat.add_zero] at h0
    have hrest : ∀ j < n + 1, posts (idx + 1 + j) = .exn (msgs (idx + 1 + j)) := by
      intro j hj
      have := h (j + 1) (by omega)
      rwa [show idx + (j + 1) = idx + 1 + j from by omega] at this
    have hstep : PanApiHandler.createGo name posts (n + 1 + 1) idx s =
        PanApiHandler.createGo name posts (n + 1) (idx + 1) (s + 1) := by
      simp [PanApiHandler.createGo, h0]
    rw [hstep, ih (idx + 1) (s + 1) hrest]
    have e1 : idx + 1 + n = idx + (n + 1) := by omega
    have e2 : s + 1 + n = s + (n + 1) := by omega
    rw [e1, e2]

/-- `PanApiHandler.create_object` never lets an exception escape: every branch
of its attempt loop returns an outcome. -/
lemma PanApiHandler.createGo_ret (name : String) (posts : Nat → PostResult) :
    ∀ (n idx s : Nat), ∃ o, (PanApiHandler.createGo name posts n idx s).result = .ret o := by
  intro n
  induction n with
  | zero => intro idx s; exact ⟨_, rfl⟩
  | succ n ih =>
    intro idx s
    cases hp : posts idx with
    | exn m =>
      by_cases hn : n = 0
      · subst hn
        refine ⟨.failed name ("Exception: " ++ m), ?_⟩
        simp [PanApiHandler.createGo, hp]
      · have hb : (n == 0) = false := by simpa using hn
        have := ih (idx + 1) (s + 1)
        simpa [PanApiHandler.createGo, hp, hb] using this
    | resp st body =>
      simp only [PanApiHandler.createGo, hp]
      repeat' split
      all_goals first | exact ⟨_, rfl⟩ | exact ih _ _

/-- If the creator never raises, the collection loop of `create_objects`
returns one outcome per submitted item. -/
lemma collectOutcomes_ret
    (create : String → (Nat → PostResult) → RunResult)
    (h : ∀ nm posts, ∃ o, (create nm posts).result = .ret o) :
    ∀ l : List BatchItem, ∃ outs,
      collectOutcomes create l = .ret outs ∧ outs.length = l.length := by
  intro l
  induction l with
  | nil => exact ⟨[], rfl, rfl⟩
  | cons it rest ih =>
    obtain ⟨nm, posts⟩ := it
    obtain ⟨o, ho⟩ := h nm posts
    obtain ⟨outs, houts, hlen⟩ := ih
    refine ⟨o :: outs, ?_, by simp [hlen]⟩
    simp [collectOutcomes, ho, houts]

/-- A post stream answering every attempt with an already-exists 400. -/
def alreadyExistsStream : Nat → PostResult :=
  fun _ => .resp 400 "Object already exists: web-tag"

/-- C5 counterexample: the claim states that at `now = expires_at - 181` the
token is reported expired.  With `expires_at = 1000` and `now = 819` the
source comparison `now > expires_at - 180` is `819 > 820`, which is false, so
`token_is_expired` reports the token valid, refuting the claim as stated. -/
theorem claim_C5_counterexample :
    PostUtils.token_is_expired "tok" true 1000 819 = false := by
  norm_num [PostUtils.token_is_expired]

/-- C5 (amended): `token_is_expired` (with the token file present) reports
expiry exactly when `now > expires_at - 180`, for any `access_token` (which
the source ignores); consequently at `now = expires_at - 181` the token is
reported valid and at `now = expires_at - 179` it is reported expired —
the opposite of the two concrete instances in the claim. -/
theorem claim_C5_expiry_boundary (tok : String) (e now : Rat) :
    (PostUtils.token_is_expired tok true e now = true ↔ now > e - 180)
    ∧ PostUtils.token_is_expired tok true e (e - 181) = false
    ∧ PostUtils.token_is_expired tok true e (e - 179) = true := by
  refine ⟨by simp [PostUtils.token_is_expired], ?_, ?_⟩
  · simp only [PostUtils.token_is_expired, if_true, decide_eq_false_iff_not]
    intro hlt
    linarith
  · simp only [PostUtils.token_is_expired, if_true, decide_eq_true_eq]
    linarith

/-- C6: in both `create_object` implementations, a first-attempt 400 response
whose body contains "object already exists" (case-insensitive) immediately
yields the `('This object exists', name)` outcome with zero sleeps, for every
configured retry budget — no retry attempt is consumed. -/
theorem claim_C6_already_exists (name : String) (retries : Nat)
    (posts : Nat → PostResult)
    (h : isAlreadyExistsResp (posts 0) = true) :
    PostUtils.create_object name posts retries = ⟨.ret (.alreadyExists name), 0⟩
    ∧ PanApiHandler.create_object name posts retries =
        ⟨.ret (.alreadyExists name), 0⟩ := by
  cases hp : posts 0 with
  | exn m => rw [hp] at h; simp [isAlreadyExistsResp] at h
  | resp st body =>
    rw [hp] at h
    simp only [isAlreadyExistsResp, Bool.and_eq_true, beq_iff_eq] at h
    obtain ⟨hst, hex⟩ := h
    subst hst
    constructor
    · simp [PostUtils.create_object, PostUtils.createGo, hp, hex]
    · simp [PanApiHandler.create_object, PanApiHandler.createGo, hp, hex]

/-- Witness for C6 at a concrete already-exists response. -/
theorem claim_C6_witness :
    isAlreadyExistsResp (alreadyExistsStream 0) = true
    ∧ PostUtils.create_object "w6" alreadyExistsStream 2 =
        ⟨.ret (.alreadyExists "w6"), 0⟩
    ∧ PanApiHandler.create_object "w6" alreadyExistsStream 2 =
        ⟨.ret (.alreadyExists "w6"), 0⟩ :=
  ⟨by decide,
   (claim_C6_already_exists "w6" 2 alreadyExistsStream (by decide)).1,
   (claim_C6_already_exists "w6" 2 alreadyExistsStream (by decide)).2⟩

/-- C7: in both `create_object` implementations, when every attempt draws an
invalid-reference 400 the function sleeps the configured delay once per
attempt (retries + 1 sleeps), retries up to the configured maximum, and then
returns `('error creating object', name, "Failed after retries")`. -/
theorem claim_C7_invalid_reference (name : String) (retries : Nat)
    (posts : Nat → PostResult)
    (h : ∀ j < retries + 1, isInvalidRefResp (posts j) = true) :
    PostUtils.create_object name posts retries =
      ⟨.ret (.failed name "Failed after retries"), retries + 1⟩
    ∧ PanApiHandler.create_object name posts retries =
      ⟨.ret (.failed name "Failed after retries"), retries + 1⟩ := by
  have h0 : ∀ j < retries + 1, isInvalidRefResp (posts (0 + j)) = true := by
    intro j hj; rw [Nat.zero_add]; exact h j hj
  constructor
  · have := PostUtils.createGo_allInvalid name posts (retries + 1) 0 none 0 h0
    simpa [PostUtils.create_object] using this
  · have hr : ∀ j < retries + 1, isScmRetryableResp (posts (0 + j)) = true := by
      intro j hj
      rw [Nat.zero_add]
      simp only [isScmRetryableResp, Bool.or_eq_true]
      exact Or.inl (h j hj)
    have := PanApiHandler.createGo_allRetryable name posts (retries + 1) 0 0 hr
    simpa [PanApiHandler.create_object] using this

/-- Witness for C7 at a concrete all-invalid-reference environment. -/
theorem claim_C7_witness :
    (∀ j < 2, isInvalidRefResp (invalidRefStream j) = true)
    ∧ PostUtils.create_object "w7" invalidRefStream 1 =
        ⟨.ret (.failed "w7" "Failed after retries"), 2⟩
    ∧ PanApiHandler.create_object "w7" invalidRefStream 1 =
        ⟨.ret (.failed "w7" "Failed after retries"), 2⟩ :=
  ⟨by decide,
   (claim_C7_invalid_reference "w7" 1 invalidRefStream (by decide)).1,
   (claim_C7_invalid_reference "w7" 1 invalidRefStream (by decide)).2⟩

/-- C8: the claim says the except branch of `post_utils.create_object` always
returns a Failed outcome.  Evaluating the code at the claimed failing input —
the POST raises on the first attempt, before any 400 body was parsed, with
the default `retries=1` — shows the except branch instead raises `NameError`
on the unbound local `error_response` (the f-string it logs mentions it), so
the exception path itself raises exactly as the design note in the spec
warns. -/
theorem claim_C8_exception_path_eval :
    PostUtils.create_object "a" exnStream 1 = ⟨.exn "NameError", 0⟩ := by
  decide

/-- C2 counterexample: with `retries = 2`, attempt 0 an invalid-reference 400
(which binds `error_response` and sleeps once) and attempt 1 a POST
exception, `post_utils.create_object` returns the terminal outcome on
attempt 1 even though an attempt remains — the exception is not retried.
And in `PanApiHandler.create_object`, exhausting all attempts on exceptions
returns reason `"Exception: timeout"`, not the claimed
`"Exception occurred"`.  Both refute the claim as stated. -/
theorem claim_C2_counterexample :
    PostUtils.create_object "a" invalidRefThenExnStream 2 =
      ⟨.ret (.failed "a" "Exception occurred"), 1⟩
    ∧ PanApiHandler.create_object "a" exnStream 1 =
      ⟨.ret (.failed "a" "Exception: timeout"), 1⟩ := by
  exact ⟨by decide, by decide⟩

/-- C2 (amended): in `PanApiHandler.create_object` a POST exception is
retryable — each non-final attempt sleeps and retries, and only when all
attempts are exhausted does it return
`('error creating object', name, "Exception: " + str(e))`.  In
`post_utils.create_object` an exception is terminal on the attempt it occurs:
whenever a 400 body was parsed on an earlier attempt it returns
`('error creating object', name, "Exception occurred")` immediately, without
retrying. -/
theorem claim_C2_exception_retry :
    (∀ (name : String) (retries : Nat) (posts : Nat → PostResult)
        (msgs : Nat → String),
      (∀ j < retries + 1, posts j = .exn (msgs j)) →
      PanApiHandler.create_object name posts retries =
        ⟨.ret (.failed name ("Exception: " ++ msgs retries)), retries⟩)
    ∧ (∀ (name : String) (retries : Nat) (posts : Nat → PostResult)
        (body m : String),
      1 ≤ retries → posts 0 = .resp 400 body →
      lowerHas body "object already exists" = false →
      lowerHas body "is not a valid reference" = true →
      posts 1 = .exn m →
      PostUtils.create_object name posts retries =
        ⟨.ret (.failed name "Exception occurred"), 1⟩) := by
  constructor
  · intro name retries posts msgs h
    have h0 : ∀ j < retries + 1, posts (0 + j) = .exn (msgs (0 + j)) := by
      intro j hj; rw [Nat.zero_add]; exact h j hj
    have := PanApiHandler.createGo_allExn name posts msgs retries 0 0 h0
    simpa [PanApiHandler.create_object] using this
  · intro name retries posts body m hr hp0 hex hinv hp1
    obtain ⟨r, rfl⟩ : ∃ r, retries = r + 1 := ⟨retries - 1, by omega⟩
    have step1 : PostUtils.create_object name posts (r + 1) =
        PostUtils.createGo name posts (r + 1) 1 (some body) 1 := by
      simp [PostUtils.create_object, PostUtils.createGo, hp0, hex, hinv]
    have step2 : PostUtils.createGo name posts (r + 1) 1 (some body) 1 =
        ⟨.ret (.failed name "Exception occurred"), 1⟩ := by
      simp [PostUtils.createGo, hp1]
    rw [step1, step2]

/-- Witness for the amended C2 at concrete environments. -/
theorem claim_C2_witness :
    ((∀ j < 2, exnStream j = PostResult.exn "timeout")
      ∧ PanApiHandler.create_object "w2" exnStream 1 =
          ⟨.ret (.failed "w2" "Exception: timeout"), 1⟩)
    ∧ (1 ≤ 2
      ∧ invalidRefThenExnStream 0 = .resp 400 "tag99 is not a valid reference"
      ∧ lowerHas "tag99 is not a valid reference" "object already exists" = false
      ∧ lowerHas "tag99 is not a valid reference" "is not a valid reference" = true
      ∧ invalidRefThenExnStream 1 = .exn "timeout"
      ∧ PostUtils.create_object "w2" invalidRefThenExnStream 2 =
          ⟨.ret (.failed "w2" "Exception occurred"), 1⟩) :=
  ⟨⟨by decide,
    claim_C2_exception_retry.1 "w2" 1 exnStream (fun _ => "timeout") (by decide)⟩,
   by decide, by decide, by decide, by decide, by decide,
   claim_C2_exception_retry.2 "w2" 2 invalidRefThenExnStream
     "tag99 is not a valid reference" "timeout"
     (by decide) (by decide) (by decide) (by decide) (by decide)⟩

/-- C3 counterexample: a 500 response on every attempt of
`post_utils.create_object` (with `retries = 2`) does not produce the claimed
immediate `"Error: Object creation failed"` outcome; the 500 falls through
the if/elif chain with no handling, all three attempts are consumed without
sleeping, and the function returns `"Failed after retries"`. -/
theorem claim_C3_counterexample :
    PostUtils.create_object "a" serverErrorStream 2 =
      ⟨.ret (.failed "a" "Failed after retries"), 0⟩ := by
  decide

/-- C3 (amended): in `PanApiHandler.create_object` every response that is
neither 201 nor a 400 matching the three substrings — any non-400 status such
as 500, and any unmatched 400 — immediately yields
`('error creating object', name, "Error: Object creation failed")` with no
retry consumed.  In `post_utils.create_object` this holds only for an
unmatched 400; a status that is neither 201 nor 400 is silently retried
without sleeping and, once attempts are exhausted, yields
`('error creating object', name, "Failed after retries")`. -/
theorem claim_C3_terminal_failure :
    (∀ (name : String) (retries : Nat) (posts : Nat → PostResult),
      isPlainFailResp (posts 0) = true →
      PanApiHandler.create_object name posts retries =
        ⟨.ret (.failed name "Error: Object creation failed"), 0⟩)
    ∧ (∀ (name : String) (retries : Nat) (posts : Nat → PostResult)
        (body : String),
      posts 0 = .resp 400 body →
      lowerHas body "object already exists" = false →
      lowerHas body "is not a valid reference" = false →
      PostUtils.create_object name posts retries =
        ⟨.ret (.failed name "Error: Object creation failed"), 0⟩)
    ∧ (∀ (name : String) (retries : Nat) (posts : Nat → PostResult),
      (∀ j < retries + 1, isOtherStatusResp (posts j) = true) →
      PostUtils.create_object name posts retries =
        ⟨.ret (.failed name "Failed after retries"), 0⟩) := by
  refine ⟨?_, ?_, ?_⟩
  · intro name retries posts h
    cases hp : posts 0 with
    | exn m => rw [hp] at h; simp [isPlainFailResp] at h
    | resp st body =>
      rw [hp] at h
      simp only [isPlainFailResp, Bool.and_eq_true, Bool.or_eq_true,
        bne_iff_ne, ne_eq, Bool.not_eq_true'] at h
      obtain ⟨h201, hrest⟩ := h
      have e201 : (st == 201) = false := by simpa using h201
      rcases hrest with h400 | ⟨⟨hex, hinv⟩, hrate⟩
      · have e400 : (st == 400) = false := by simpa using h400
        simp [PanApiHandler.create_object, PanApiHandler.createGo, hp,
          e201, e400]
      · by_cases h4 : st = 400
        · subst h4
          simp [PanApiHandler.create_object, PanApiHandler.createGo, hp,
            hex, hinv, hrate]
        · have e400 : (st == 400) = false := by simpa using h4
          simp [PanApiHandler.create_object, PanApiHandler.createGo, hp,
            e201, e400]
  · intro name retries posts body hp hex hinv
    simp [PostUtils.create_object, PostUtils.createGo, hp, hex, hinv]
  · intro name retries posts h
    have h0 : ∀ j < retries + 1, isOtherStatusResp (posts (0 + j)) = true := by
      intro j hj; rw [Nat.zero_add]; exact h j hj
    have := PostUtils.createGo_allOther name posts (retries + 1) 0 none 0 h0
    simpa [PostUtils.create_object] using this

/-- Witness for the amended C3 at concrete environments: a 500 for the scm
immediate failure, an unmatched 400 for the post_utils immediate failure,
and an all-500 environment for the post_utils fall-through. -/
theorem claim_C3_witness :
    (isPlainFailResp (serverErrorStream 0) = true
      ∧ PanApiHandler.create_object "w3" serverErrorStream 2 =
          ⟨.ret (.failed "w3" "Error: Object creation failed"), 0⟩)
    ∧ (rateLimitStream 0 = .resp 400 "Max retries exceeded with url"
      ∧ lowerHas "Max retries exceeded with url" "object already exists" = false
      ∧ lowerHas "Max retries exceeded with url" "is not a valid reference" = false
      ∧ PostUtils.create_object "w3" rateLimitStream 2 =
          ⟨.ret (.failed "w3" "Error: Object creation failed"), 0⟩)
    ∧ ((∀ j < 3, isOtherStatusResp (serverErrorStream j) = true)
      ∧ PostUtils.create_object "w3" serverErrorStream 2 =
          ⟨.ret (.failed "w3" "Failed after retries"), 0⟩) :=
  ⟨⟨by decide, claim_C3_terminal_failure.1 "w3" 2 serverErrorStream (by decide)⟩,
   ⟨by decide, by decide, by decide,
    claim_C3_terminal_failure.2.1 "w3" 2 rateLimitStream
      "Max retries exceeded with url" (by decide) (by decide) (by decide)⟩,
   ⟨by decide, claim_C3_terminal_failure.2.2 "w3" 2 serverErrorStream (by decide)⟩⟩

/-- C4 counterexample: `post_utils.create_object` has no rate-limit branch.
A 400 response whose body contains "max retries exceeded" is not retried:
with `retries = 2` it returns the terminal
`('error creating object', name, "Error: Object creation failed")` outcome on
the first attempt with zero sleeps, refuting the claim as stated for that
implementation. -/
theorem claim_C4_counterexample :
    PostUtils.create_object "a" rateLimitStream 2 =
      ⟨.ret (.failed "a" "Error: Object creation failed"), 0⟩ := by
  decide

/-- C4 (amended): the rate-limit classification exists only in
`PanApiHandler.create_object`: there, a 400 whose body contains
"max retries exceeded" (and not an earlier-checked substring) sleeps and
retries on every attempt, falling off the end with
`('error creating object', name, "Failed after retries")` once attempts are
exhausted.  `post_utils.create_object` treats the same response as an
unmatched 400 and returns
`('error creating object', name, "Error: Object creation failed")`
immediately. -/
theorem claim_C4_rate_limit :
    (∀ (name : String) (retries : Nat) (posts : Nat → PostResult),
      (∀ j < retries + 1, isRateLimitResp (posts j) = true) →
      PanApiHandler.create_object name posts retries =
        ⟨.ret (.failed name "Failed after retries"), retries + 1⟩)
    ∧ (∀ (name : String) (retries : Nat) (posts : Nat → PostResult),
      isRateLimitResp (posts 0) = true →
      PostUtils.create_object name posts retries =
        ⟨.ret (.failed name "Error: Object creation failed"), 0⟩) := by
  constructor
  · intro name retries posts h
    have h0 : ∀ j < retries + 1, isScmRetryableResp (posts (0 + j)) = true := by
      intro j hj
      rw [Nat.zero_add]
      simp only [isScmRetryableResp, Bool.or_eq_true]
      exact Or.inr (h j hj)
    have := PanApiHandler.createGo_allRetryable name posts (retries + 1) 0 0 h0
    simpa [PanApiHandler.create_object] using this
  · intro name retries posts h
    cases hp : posts 0 with
    | exn m => rw [hp] at h; simp [isRateLimitResp] at h
    | resp st body =>
      rw [hp] at h
      simp only [isRateLimitResp, Bool.and_eq_true, beq_iff_eq,
        Bool.not_eq_true'] at h
      obtain ⟨⟨⟨hst, hex⟩, hinv⟩, hrate⟩ := h
      subst hst
      simp [PostUtils.create_object, PostUtils.createGo, hp, hex, hinv]

/-- Witness for the amended C4 at a concrete rate-limited environment. -/
theorem claim_C4_witness :
    ((∀ j < 2, isRateLimitResp (rateLimitStream j) = true)
      ∧ PanApiHandler.create_object "w4" rateLimitStream 1 =
          ⟨.ret (.failed "w4" "Failed after retries"), 2⟩)
    ∧ (isRateLimitResp (rateLimitStream 0) = true
      ∧ PostUtils.create_object "w4" rateLimitStream 1 =
          ⟨.ret (.failed "w4" "Error: Object creation failed"), 0⟩) :=
  ⟨⟨by decide, claim_C4_rate_limit.1 "w4" 1 rateLimitStream (by decide)⟩,
   ⟨by decide, claim_C4_rate_limit.2 "w4" 1 rateLimitStream (by decide)⟩⟩

/-- C1: the claim says `create_objects` always returns exactly one outcome
per element of `data[start_index:]` and never raises on account of a single
item.  Evaluating `post_utils.create_objects` at the failing input — a batch
of one item whose POST raises on every attempt — shows the worker raises
`NameError` (the `error_response` bug in its except branch),
`future.result()` re-raises it, and the orchestrator propagates it instead of
returning an outcome list.  The scm orchestrator `PanApiHandler.create_objects`
does satisfy the claim: its worker never raises, so for every batch it
returns exactly one outcome per element of `data[start_index:]`. -/
theorem claim_C1_batch_eval :
    PostUtils.create_objects [("a", exnStream)] 0 = .exn "NameError"
    ∧ ∀ (data : List BatchItem) (start_index : Nat),
        ∃ outs, PanApiHandler.create_objects data start_index = .ret outs
          ∧ outs.length = (data.drop start_index).length := by
  constructor
  · decide
  · intro data start_index
    exact collectOutcomes_ret _
      (fun nm posts => PanApiHandler.createGo_ret nm posts 3 0 0) _

/-- The guarded critical section leaves a non-expired credential untouched,
however many workers still have to run it. -/
lemma runGuardedWorkers_stable (tok : String) (now lifetime : Rat) :
    ∀ (m : Nat) (s : TokenState),
      PostUtils.token_is_expired tok s.fileExists s.expires_at now = false →
      runGuardedWorkers tok now lifetime m s = s := by
  intro m
  induction m with
  | zero => intro s _; rfl
  | succ m ih =>
    intro s h
    have hfix : guardedRefresh tok now lifetime s = s := by
      simp [guardedRefresh, h]
    calc runGuardedWorkers tok now lifetime (m + 1) s
        = runGuardedWorkers tok now lifetime m (guardedRefresh tok now lifetime s) := rfl
      _ = runGuardedWorkers tok now lifetime m s := by rw [hfix]
      _ = s := ih s h

/-- A freshly refreshed credential is outside the 180-second buffer at the
refresh instant whenever its lifetime exceeds the buffer. -/
lemma fresh_token_valid (tok : String) (now lifetime : Rat)
    (h : 180 < lifetime) :
    PostUtils.token_is_expired tok true (now + lifetime) now = false := by
  simp only [PostUtils.token_is_expired, if_true, decide_eq_false_iff_not]
  intro hlt
  linarith

/-- C9: with the lock of `post_utils.create_object` held across both the
expiry check and the forced refresh, any N concurrent workers serialize into
N runs of the critical section; starting from an expired credential (or a
missing token file) exactly one `obtain_api_token(force_refresh=True)` call
is issued, provided the refreshed credential outlives the 180-second buffer. -/
theorem claim_C9_single_flight (tok : String) (now lifetime : Rat)
    (n : Nat) (s : TokenState)
    (hn : 0 < n) (hl : 180 < lifetime)
    (hexp : PostUtils.token_is_expired tok s.fileExists s.expires_at now = true) :
    (runGuardedWorkers tok now lifetime n s).refreshCount = s.refreshCount + 1 := by
  obtain ⟨m, rfl⟩ : ∃ m, n = m + 1 := ⟨n - 1, by omega⟩
  have hfirst : guardedRefresh tok now lifetime s =
      ⟨true, now + lifetime, s.refreshCount + 1⟩ := by
    simp [guardedRefresh, hexp]
  have hstable := runGuardedWorkers_stable tok now lifetime m
      ⟨true, now + lifetime, s.refreshCount + 1⟩
      (by simpa using fresh_token_valid tok now lifetime hl)
  calc (runGuardedWorkers tok now lifetime (m + 1) s).refreshCount
      = (runGuardedWorkers tok now lifetime m
          (guardedRefresh tok now lifetime s)).refreshCount := rfl
    _ = s.refreshCount + 1 := by rw [hfirst, hstable]

/-- Witness for C9: three workers, a missing token file (hence expired), and
a one-hour credential lifetime yield exactly one forced refresh. -/
theorem claim_C9_witness :
    0 < 3 ∧ (180 : Rat) < 3600
    ∧ PostUtils.token_is_expired "t" false 0 1000 = true
    ∧ (runGuardedWorkers "t" 1000 3600 3 ⟨false, 0, 0⟩).refreshCount = 0 + 1 :=
  ⟨by decide, by norm_num, rfl,
   claim_C9_single_flight "t" 1000 3600 3 ⟨false, 0, 0⟩ (by decide)
     (by norm_num) rfl⟩

/-- C10 counterexample: the claim says `list_objects` never raises and on a
200 response returns the body's "data" field.  But only the GET itself is
inside the try block; `response.json()` on a 200 response runs after it, so a
200 response whose body fails to parse makes `list_objects` raise instead of
returning a list. -/
theorem claim_C10_counterexample :
    PanApiHandler.list_objects none
      (.resp 200 (.exn "JSONDecodeError") "not json") =
      .exn "JSONDecodeError" := by
  decide

/-- C10 (amended): `list_objects` catches only exceptions from the GET call
itself: on such an exception, or on any non-200 status, it returns the empty
list; on a 200 response with a parsable body it returns the body's "data"
field, defaulting to the empty list when absent.  Exceptions from the token
validation that precedes the try block, or from parsing a 200 body, propagate
to the caller. -/
theorem claim_C10_list_objects :
    (∀ m : String, PanApiHandler.list_objects none (.exn m) = .ret [])
    ∧ (∀ (status : Nat) (body : PanApiHandler.BodyJson) (text : String),
        status ≠ 200 →
        PanApiHandler.list_objects none (.resp status body text) = .ret [])
    ∧ (∀ (d : Option (List String)) (text : String),
        PanApiHandler.list_objects none (.resp 200 (.val d) text) =
          .ret (d.getD []))
    ∧ (∀ (m text : String),
        PanApiHandler.list_objects none (.resp 200 (.exn m) text) = .exn m)
    ∧ (∀ (m : String) (g : PanApiHandler.GetResult),
        PanApiHandler.list_objects (some m) g = .exn m) := by
  refine ⟨fun m => rfl, ?_, fun d text => rfl, fun m text => rfl,
    fun m g => rfl⟩
  intro status body text h
  have hb : (status == 200) = false := by simpa using h
  simp [PanApiHandler.list_objects, hb]

/-- Witness for the amended C10 at a concrete 404 response. -/
theorem claim_C10_witness :
    (404 : Nat) ≠ 200
    ∧ PanApiHandler.list_objects none (.resp 404 (.val none) "err") = .ret [] :=
  ⟨by decide, claim_C10_list_objects.2.1 404 (.val none) "err" (by decide)⟩
